import Mathlib

/-!
Verification development for the dev-server HTTP mirror (src/main.rs).

The program accepts an inbound request, optionally fans it out to a set of
configured proxy destinations, races the outbound calls, and answers with
the first transport-level success, or with a configured default body when
no destination succeeds. This file embeds the request handler (the closure
passed to service_fn, src/main.rs lines 107-181) as pure Lean functions:

* bodies are byte sequences (List Nat), and String::from_utf8 is modelled
  by the UTF-8 validity check isValidUtf8 (RFC 3629: the exact byte-level
  acceptance condition of Rust's std), together with the fact that a
  successful decode keeps the bytes unchanged;
* hyper's http::Uri is embedded as HUri (optional scheme, optional
  authority, path-and-query), with uriToString following the Display
  implementation of http::Uri (scheme "://" authority path ?query) and
  parseUri a faithful rendering of the parse at line 134 on the shapes of
  destination strings;
* the nondeterministic completion order that futures::select_all resolves
  is an input: the handler receives the list of attempt outcomes in the
  order select_all yields them, and the while loop at lines 148-175 is the
  function race over that list;
* a Rust panic (the expect calls at lines 134, 135, 141, 157) is the
  HandlerResult.panicked variant; the second component of the handler
  result lists the outbound requests constructed before the handler
  returned or panicked (one per destination reached at lines 131-146).
-/

namespace DevServer

/-- Embedding of http::Uri: optional scheme, optional authority, and the
path together with the query (for an origin-form request target such as
"/p?q=1" both scheme and authority are none). -/
structure HUri where
  scheme : Option String
  authority : Option String
  pathAndQuery : String
deriving DecidableEq

/-- An inbound hyper Request after its body stream was buffered (line 112):
method, uri, version, the header list in order, and the body bytes. -/
structure HRequest where
  method : String
  uri : HUri
  version : String
  headers : List (String × String)
  body : List Nat
deriving DecidableEq

/-- A hyper Response as the handler observes it after buffering the body
(lines 154-156): status code, header list, body bytes. -/
structure HResponse where
  status : Nat
  headers : List (String × String)
  body : List Nat
deriving DecidableEq

/-- One outbound request as built at lines 136-145: the absolute URI is a
rendered string, the timeout wrapped around the call is recorded with the
attempt (line 145). -/
structure OutboundReq where
  method : String
  uri : String
  version : String
  headers : List (String × String)
  body : List Nat
  timeoutSecs : Nat
deriving DecidableEq

/-- What one awaited attempt yields at line 149: the match at lines 152-174
distinguishes Ok(Ok(response)) (transport success, any status code),
Ok(Err(e)) (transport failure) and Err(_) (the timeout elapsed). -/
inductive AttemptResult where
  | success (resp : HResponse)
  | transportFailure
  | timeout
deriving DecidableEq

/-- The race outcome: either some attempt won with its response, or the
pending set drained without a success. -/
inductive RaceOutcome where
  | won (resp : HResponse)
  | noSuccess
deriving DecidableEq

/-- What the handler task produces: a response to the caller, or a panic
(one of the expect calls fired), which ends the task without a response. -/
inductive HandlerResult where
  | ok (resp : HResponse)
  | panicked (msg : String)
deriving DecidableEq

/-- The resolved configuration structure (src/main.rs lines 34-39). It has
exactly the three fields below: in particular no timeout field and no
status-code field exists anywhere in Opt (lines 14-32) or Config. -/
structure Config where
  listen_address : Option String
  proxy_destinations : Option (List String)
  default_response : Option String
deriving DecidableEq

/-- A UTF-8 continuation byte: 0x80..0xBF. -/
def isCont (b : Nat) : Bool := 0x80 ≤ b && b ≤ 0xBF

/-- Byte-level UTF-8 validity, exactly the acceptance condition of Rust's
String::from_utf8 (RFC 3629: 1-4 byte sequences, no overlongs, no
surrogates, maximum U+10FFFF). -/
def isValidUtf8 : List Nat → Bool
  | [] => true
  | b :: rest =>
    if b ≤ 0x7F then isValidUtf8 rest
    else if 0xC2 ≤ b && b ≤ 0xDF then
      match rest with
      | b1 :: rest2 => isCont b1 && isValidUtf8 rest2
      | [] => false
    else if b = 0xE0 then
      match rest with
      | b1 :: b2 :: rest3 => (0xA0 ≤ b1 && b1 ≤ 0xBF) && isCont b2 && isValidUtf8 rest3
      | _ => false
    else if (0xE1 ≤ b && b ≤ 0xEC) || b = 0xEE || b = 0xEF then
      match rest with
      | b1 :: b2 :: rest3 => isCont b1 && isCont b2 && isValidUtf8 rest3
      | _ => false
    else if b = 0xED then
      match rest with
      | b1 :: b2 :: rest3 => (0x80 ≤ b1 && b1 ≤ 0x9F) && isCont b2 && isValidUtf8 rest3
      | _ => false
    else if b = 0xF0 then
      match rest with
      | b1 :: b2 :: b3 :: rest4 =>
        (0x90 ≤ b1 && b1 ≤ 0xBF) && isCont b2 && isCont b3 && isValidUtf8 rest4
      | _ => false
    else if 0xF1 ≤ b && b ≤ 0xF3 then
      match rest with
      | b1 :: b2 :: b3 :: rest4 => isCont b1 && isCont b2 && isCont b3 && isValidUtf8 rest4
      | _ => false
    else if b = 0xF4 then
      match rest with
      | b1 :: b2 :: b3 :: rest4 =>
        (0x80 ≤ b1 && b1 ≤ 0x8F) && isCont b2 && isCont b3 && isValidUtf8 rest4
      | _ => false
    else false

/-- UTF-8 bytes of an ASCII string literal (every literal this file uses is
ASCII, where UTF-8 encoding is the identity on code points). -/
def asciiBytes (s : String) : List Nat := s.data.map Char.toNat

/-- Body of the fixed diagnostic response built at line 117. -/
def diagnosticBody : List Nat := asciiBytes "Invalid UTF-8 in request body"

/-- Splits a character list at the first occurrence of the "://" scheme
separator: some (before, after), or none when the separator is absent. -/
def splitSchemeSep : List Char → Option (List Char × List Char)
  | ':' :: '/' :: '/' :: rest => some ([], rest)
  | c :: rest => (splitSchemeSep rest).map (fun p => (c :: p.1, p.2))
  | [] => none

/-- The authority component extends to the first of / ? # (http::uri):
returns (authority characters, remainder starting at the separator). -/
def spanAuthority : List Char → List Char × List Char
  | [] => ([], [])
  | c :: rest =>
    if c == '/' || c == '?' || c == '#' then ([], c :: rest)
    else
      let p := spanAuthority rest
      (c :: p.1, p.2)

/-- A scheme is one letter then letters, digits, + - . (http::uri). -/
def schemeOk (s : List Char) : Bool :=
  match s with
  | [] => false
  | c :: rest => c.isAlpha && rest.all fun d => d.isAlphanum || d == '+' || d == '-' || d == '.'

/-- Characters http::uri admits inside an authority (host, port, userinfo). -/
def isAuthorityChar (c : Char) : Bool :=
  c.isAlphanum || c == '.' || c == '-' || c == '_' || c == '~' || c == ':' ||
  c == '@' || c == '[' || c == ']' || c == '%' || c == '!' || c == '$' ||
  c == '&' || c == '+' || c == '=' || c == '*' || c == ',' || c == ';'

/-- A non-empty run of authority characters. -/
def authorityOk (a : List Char) : Bool := !a.isEmpty && a.all isAuthorityChar

/-- Path-and-query characters: visible ASCII (http::uri rejects blanks and
control characters in a request target). -/
def pathQueryOk (p : List Char) : Bool :=
  p.all fun c => decide (0x21 ≤ c.toNat ∧ c.toNat ≤ 0x7E)

/-- The str::parse::<hyper::Uri> call at line 134, on the shapes destination
strings take: "scheme://authority..." splits into components, a string
starting with / is an origin-form target (no scheme, no authority), any
other non-empty run of authority characters is authority-form, and the
empty string or a string with invalid characters fails to parse. -/
def parseUri (s : String) : Option HUri :=
  let cs := s.data
  match splitSchemeSep cs with
  | some (sch, rest) =>
    let ap := spanAuthority rest
    if schemeOk sch && authorityOk ap.1 && pathQueryOk ap.2 then
      some { scheme := some (String.mk sch), authority := some (String.mk ap.1),
             pathAndQuery := String.mk ap.2 }
    else none
  | none =>
    if cs.isEmpty then none
    else if cs.head? = some '/' then
      if pathQueryOk cs then
        some { scheme := none, authority := none, pathAndQuery := s }
      else none
    else
      if authorityOk cs then
        some { scheme := none, authority := some s, pathAndQuery := "" }
      else none

/-- The Display rendering of http::Uri, used by the format! at line 135 for
the inbound request target: scheme "://" when present, then the authority
when present, then the path and query. -/
def uriToString (u : HUri) : String :=
  (match u.scheme with
   | some s => s ++ "://"
   | none => "") ++
  (match u.authority with
   | some a => a
   | none => "") ++
  u.pathAndQuery

/-- Line 130: let timeout_duration = Duration::from_secs(30) — a literal
constant inside the handler. -/
def timeoutDurationSecs : Nat := 30

/-- The timeout the handler uses as a function of the resolved
configuration: line 130 assigns the constant Duration::from_secs(30), and
no field of Opt or Config enters (neither structure has a timeout field). -/
def handlerTimeoutSecs (_ : Config) : Nat := timeoutDurationSecs

/-- Lines 131-145 for one destination string: parse it (the expect at line
134 panics on a parse failure), unwrap its authority (line 135 panics when
it is absent), pair the destination scheme — defaulting to "http" — and
authority with the Display rendering of the inbound URI, clone method,
version and the full header set from the inbound request (lines 137, 139,
143), attach the buffered body bytes (line 140; from_utf8 returned these
bytes unchanged), and wrap the call in the 30-second timeout (line 145).
The expect at line 141 cannot fire here: its components come from parsed
URIs, so the concatenated string is character-valid for the builder. -/
def buildAttempt (req : HRequest) (bodyStr : List Nat) (proxy : String) :
    Except String OutboundReq :=
  match parseUri proxy with
  | none => Except.error "Invalid proxy URI"
  | some proxyUri =>
    match proxyUri.authority with
    | none => Except.error "called Option::unwrap on a None value"
    | some auth =>
      Except.ok {
        method := req.method
        uri := (proxyUri.scheme.getD "http") ++ "://" ++ auth ++ uriToString req.uri
        version := req.version
        headers := req.headers
        body := bodyStr
        timeoutSecs := timeoutDurationSecs }

/-- A destination string on which the construction at lines 134-135 panics:
it fails to parse, or parses without an authority. -/
def destMalformed (d : String) : Bool :=
  match parseUri d with
  | none => true
  | some u => u.authority.isNone

/-- The map-collect at lines 131-146: requests are built left to right;
the first construction panic stops the handler, so the result is the list
of requests built before the panic together with the panic message, when
one fired. -/
def buildAll (req : HRequest) (bodyStr : List Nat) :
    List String → List OutboundReq × Option String
  | [] => ([], none)
  | d :: ds =>
    match buildAttempt req bodyStr d with
    | Except.error m => ([], some m)
    | Except.ok o =>
      ((buildAll req bodyStr ds).1.cons o, (buildAll req bodyStr ds).2)

/-- Did this attempt complete with a transport-level response? -/
def AttemptResult.isSuccess : AttemptResult → Bool
  | AttemptResult.success _ => true
  | _ => false

/-- The while loop at lines 148-175 over the results in the order
select_all yields them: the first transport success wins immediately
(whatever its status code), a transport failure or timeout is dropped from
the pending set and the loop continues, and a drained pending set without
a success means no success. -/
def race : List AttemptResult → RaceOutcome
  | [] => RaceOutcome.noSuccess
  | AttemptResult.success r :: _ => RaceOutcome.won r
  | AttemptResult.transportFailure :: rest => race rest
  | AttemptResult.timeout :: rest => race rest

/-- Lines 153-166: the winning response body is buffered; the expect at
line 157 panics when it is not valid UTF-8; otherwise the response to the
caller is rebuilt from the status and the raw body bytes alone
(Response::builder().status(status).body(body_bytes): no header is copied,
the new response carries an empty header map). -/
def synthesizeWon (r : HResponse) : HandlerResult :=
  if isValidUtf8 r.body then
    HandlerResult.ok { status := r.status, headers := [], body := r.body }
  else
    HandlerResult.panicked "Response body is not valid UTF-8"

/-- The request handler, lines 111-181: buffer the body; when it is not
valid UTF-8 answer with the fixed diagnostic response (Response::new is
status 200 with an empty header map) and contact no destination; when
destinations are configured, construct one outbound request per
destination (a construction panic ends the task), race the attempts, and
answer from the winner or — when no attempt succeeded — with the
configured default body via Response::new (status 200, empty header map).
The first component is the outcome the caller observes, the second the
outbound requests constructed for this request. -/
def handle (proxyDestinations : Option (List String)) (defaultResponse : List Nat)
    (req : HRequest) (completions : List AttemptResult) :
    HandlerResult × List OutboundReq :=
  if isValidUtf8 req.body then
    match proxyDestinations with
    | some dests =>
      match (buildAll req req.body dests).2 with
      | some m => (HandlerResult.panicked m, (buildAll req req.body dests).1)
      | none =>
        match race completions with
        | RaceOutcome.won r => (synthesizeWon r, (buildAll req req.body dests).1)
        | RaceOutcome.noSuccess =>
          (HandlerResult.ok { status := 200, headers := [], body := defaultResponse },
            (buildAll req req.body dests).1)
    | none => (HandlerResult.ok { status := 200, headers := [], body := defaultResponse }, [])
  else
    (HandlerResult.ok { status := 200, headers := [], body := diagnosticBody }, [])

/-- A small origin-form inbound request used by the concrete witnesses:
its target carries no scheme and no authority, its body is valid UTF-8. -/
def sampleReq : HRequest :=
  { method := "GET", uri := { scheme := none, authority := none, pathAndQuery := "/x?k=1" },
    version := "HTTP/1.1", headers := [("host", "local")], body := asciiBytes "ping" }

/-- The same request with a body byte (0xFF) that no UTF-8 sequence
contains. -/
def sampleBadReq : HRequest :=
  { method := "GET", uri := { scheme := none, authority := none, pathAndQuery := "/x?k=1" },
    version := "HTTP/1.1", headers := [("host", "local")], body := [0xFF] }

/-- An upstream response that wins the race in the C1 scenario: teapot
status and one distinctive header. -/
def c1Winner : HResponse :=
  { status := 418, headers := [("x-upstream", "yes")], body := asciiBytes "hi" }

/-- An inbound request in absolute form: hyper hands the handler such a
request when the client sends an absolute request target
(GET http://orig.example/p?q=1 HTTP/1.1), and http::Uri then carries its
scheme and authority, which {} at line 135 renders in full. -/
def c7AbsReq : HRequest :=
  { method := "GET",
    uri := { scheme := some "http", authority := some "orig.example", pathAndQuery := "/p?q=1" },
    version := "HTTP/1.1", headers := [("host", "orig.example")], body := [] }

/-- The outbound request the handler builds for sampleReq and the
destination "http://a". -/
def c8Out : OutboundReq :=
  { method := "GET", uri := "http://a/x?k=1", version := "HTTP/1.1",
    headers := [("host", "local")], body := asciiBytes "ping", timeoutSecs := 30 }

/-- A completion sequence without a transport success drains the pending
set and resolves to noSuccess. -/
theorem race_no_success (comps : List AttemptResult)
    (h : ∀ a ∈ comps, a.isSuccess = false) : race comps = RaceOutcome.noSuccess := by
  induction comps with
  | nil => rfl
  | cons a rest ih =>
    have hrest : ∀ x ∈ rest, x.isSuccess = false :=
      fun x hx => h x (List.mem_cons_of_mem _ hx)
    cases a with
    | success r =>
      have := h (AttemptResult.success r) (List.mem_cons_self _ _)
      simp [AttemptResult.isSuccess] at this
    | transportFailure => simpa [race] using ih hrest
    | timeout => simpa [race] using ih hrest

/-- The first transport success in the completion sequence wins. -/
theorem race_first_success (pre : List AttemptResult) (r : HResponse)
    (post : List AttemptResult) (h : ∀ a ∈ pre, a.isSuccess = false) :
    race (pre ++ AttemptResult.success r :: post) = RaceOutcome.won r := by
  induction pre with
  | nil => rfl
  | cons a rest ih =>
    have hrest : ∀ x ∈ rest, x.isSuccess = false :=
      fun x hx => h x (List.mem_cons_of_mem _ hx)
    cases a with
    | success r' =>
      have := h (AttemptResult.success r') (List.mem_cons_self _ _)
      simp [AttemptResult.isSuccess] at this
    | transportFailure => simpa [race] using ih hrest
    | timeout => simpa [race] using ih hrest

/-- When no construction panic fired, exactly one outbound request was
built per destination. -/
theorem buildAll_none_length (req : HRequest) (b : List Nat) (dests : List String)
    (h : (buildAll req b dests).2 = none) :
    (buildAll req b dests).1.length = dests.length := by
  induction dests with
  | nil => rfl
  | cons d ds ih =>
    cases hb : buildAttempt req b d with
    | error m => simp [buildAll, hb] at h
    | ok o =>
      simp only [buildAll, hb] at h ⊢
      simpa using ih h

/-- A malformed destination string makes the per-destination construction
panic. -/
theorem buildAttempt_malformed (req : HRequest) (b : List Nat) (d : String)
    (h : destMalformed d = true) : ∃ m, buildAttempt req b d = Except.error m := by
  unfold destMalformed at h
  unfold buildAttempt
  cases hp : parseUri d with
  | none => exact ⟨_, rfl⟩
  | some u =>
    rw [hp] at h
    cases ha : u.authority with
    | none => simp [ha]
    | some a => simp [ha] at h

/-- A destination list containing a malformed entry makes the collect at
lines 131-146 panic, and at most the destinations before the malformed
entry had their requests constructed. -/
theorem buildAll_malformed (req : HRequest) (b : List Nat) (pre post : List String)
    (bad : String) (h : destMalformed bad = true) :
    (∃ m, (buildAll req b (pre ++ bad :: post)).2 = some m) ∧
    (buildAll req b (pre ++ bad :: post)).1.length ≤ pre.length := by
  induction pre with
  | nil =>
    obtain ⟨m, hm⟩ := buildAttempt_malformed req b bad h
    simp [buildAll, hm]
  | cons d ds ih =>
    cases hb : buildAttempt req b d with
    | error m => simp [buildAll, hb]
    | ok o =>
      obtain ⟨⟨m, hm⟩, hlen⟩ := ih
      refine ⟨⟨m, ?_⟩, ?_⟩
      · simpa [buildAll, hb] using hm
      · simpa [buildAll, hb] using Nat.succ_le_succ hlen

/-- C3: while no earlier attempt has succeeded, an attempt that completes
with a transport-level response resolves the race to won with exactly that
response — whatever its HTTP status code, 4xx and 5xx included, since the
response is universally quantified — and the results of the attempts still
pending (the suffix after the success) do not affect the outcome: the race
value is the same for every such suffix. -/
theorem C3_first_success_wins (pre post : List AttemptResult) (r : HResponse)
    (hpre : ∀ a ∈ pre, a.isSuccess = false) :
    race (pre ++ AttemptResult.success r :: post) = RaceOutcome.won r ∧
    ∀ post2, race (pre ++ AttemptResult.success r :: post2)
      = race (pre ++ AttemptResult.success r :: post) := by
  refine ⟨race_first_success pre r post hpre, fun post2 => ?_⟩
  rw [race_first_success pre r post hpre, race_first_success pre r post2 hpre]

/-- C3 witness: after one transport failure, a success with status 500
wins, even though a status-200 success is still pending behind it. -/
theorem C3_witness :
    race ([AttemptResult.transportFailure] ++
        AttemptResult.success { status := 500, headers := [], body := [] } ::
          [AttemptResult.success { status := 200, headers := [], body := [] }])
      = RaceOutcome.won { status := 500, headers := [], body := [] } ∧
    ∀ post2, race ([AttemptResult.transportFailure] ++
        AttemptResult.success { status := 500, headers := [], body := [] } :: post2)
      = race ([AttemptResult.transportFailure] ++
          AttemptResult.success { status := 500, headers := [], body := [] } ::
            [AttemptResult.success { status := 200, headers := [], body := [] }]) :=
  C3_first_success_wins [AttemptResult.transportFailure]
    [AttemptResult.success { status := 200, headers := [], body := [] }]
    { status := 500, headers := [], body := [] } (by decide)

/-- C4: a transport failure or a timeout at the head of the completion
sequence is dropped and the race continues on the remainder; and a
completion sequence that drains without any transport success resolves to
noSuccess. -/
theorem C4_failure_timeout_drop (rest comps : List AttemptResult)
    (h : ∀ a ∈ comps, a.isSuccess = false) :
    race (AttemptResult.transportFailure :: rest) = race rest ∧
    race (AttemptResult.timeout :: rest) = race rest ∧
    race comps = RaceOutcome.noSuccess :=
  ⟨rfl, rfl, race_no_success comps h⟩

/-- C4 witness: dropping a failure or a timeout in front of a one-element
sequence, and a failure-then-timeout sequence resolving to noSuccess. -/
theorem C4_witness :
    race (AttemptResult.transportFailure :: [AttemptResult.timeout]) = race [AttemptResult.timeout] ∧
    race (AttemptResult.timeout :: [AttemptResult.timeout]) = race [AttemptResult.timeout] ∧
    race [AttemptResult.transportFailure, AttemptResult.timeout] = RaceOutcome.noSuccess :=
  C4_failure_timeout_drop [AttemptResult.timeout]
    [AttemptResult.transportFailure, AttemptResult.timeout] (by decide)

/-- C5: when the race ends without a success — no destinations configured
(proxy_destinations is none), or every attempt failed or timed out in any
mixture — the caller receives the locally built response whose body is
exactly the configured default body; no outbound request beyond the one
per configured destination was constructed (none at all in the
zero-destination case). -/
theorem C5_no_success_default (dflt : List Nat) (req : HRequest) (dests : List String)
    (comps : List AttemptResult)
    (hbody : isValidUtf8 req.body = true)
    (hbuild : (buildAll req req.body dests).2 = none)
    (hfail : ∀ a ∈ comps, a.isSuccess = false) :
    handle none dflt req comps
      = (HandlerResult.ok { status := 200, headers := [], body := dflt }, []) ∧
    (handle (some dests) dflt req comps).1
      = HandlerResult.ok { status := 200, headers := [], body := dflt } ∧
    (handle (some dests) dflt req comps).2.length = dests.length := by
  have hr := race_no_success comps hfail
  refine ⟨?_, ?_, ?_⟩
  · simp [handle, hbody]
  · simp [handle, hbody, hbuild, hr]
  · simp [handle, hbody, hbuild, hr, buildAll_none_length req req.body dests hbuild]

/-- C5 witness: two destinations, one transport failure and one timeout,
default body delivered and exactly two outbound requests constructed; and
the zero-destination case with no outbound request. -/
theorem C5_witness :
    handle none (asciiBytes "Default Server Response") sampleReq
        [AttemptResult.transportFailure, AttemptResult.timeout]
      = (HandlerResult.ok { status := 200, headers := [],
                             body := asciiBytes "Default Server Response" }, []) ∧
    (handle (some ["http://a", "http://b"]) (asciiBytes "Default Server Response") sampleReq
        [AttemptResult.transportFailure, AttemptResult.timeout]).1
      = HandlerResult.ok { status := 200, headers := [],
                            body := asciiBytes "Default Server Response" } ∧
    (handle (some ["http://a", "http://b"]) (asciiBytes "Default Server Response") sampleReq
        [AttemptResult.transportFailure, AttemptResult.timeout]).2.length
      = (["http://a", "http://b"] : List String).length :=
  C5_no_success_default (asciiBytes "Default Server Response") sampleReq
    ["http://a", "http://b"] [AttemptResult.transportFailure, AttemptResult.timeout]
    (by decide) (by decide) (by decide)

/-- C6: a request body that is not valid UTF-8 short-circuits the handler:
the caller receives the fixed status-200 diagnostic response carrying the
error description, and zero outbound requests are constructed, whatever
destinations are configured. -/
theorem C6_invalid_utf8_diagnostic (pd : Option (List String)) (dflt : List Nat)
    (req : HRequest) (comps : List AttemptResult)
    (hbody : isValidUtf8 req.body = false) :
    handle pd dflt req comps
      = (HandlerResult.ok { status := 200, headers := [],
                            body := asciiBytes "Invalid UTF-8 in request body" }, []) := by
  simp [handle, hbody, diagnosticBody]

/-- C6 witness: a body whose single byte 0xFF never occurs in UTF-8 yields
the diagnostic response and an empty outbound list despite a configured
destination. -/
theorem C6_witness :
    handle (some ["http://a"]) (asciiBytes "d") sampleBadReq []
      = (HandlerResult.ok { status := 200, headers := [],
                            body := asciiBytes "Invalid UTF-8 in request body" }, []) :=
  C6_invalid_utf8_diagnostic (some ["http://a"]) (asciiBytes "d") sampleBadReq [] (by decide)

/-- C1 counterexample: with one destination and a winning response whose
status is 418, whose body is "hi" and which carries the header
x-upstream: yes, the handler delivers status 418 and body "hi" but an
empty header list — the winning response headers (which are not empty) are
not carried over, refuting the claim that the delivered response carries
the winning response status code, headers and body unmodified (lines
161-164 rebuild the response from status and body alone). -/
theorem C1_counterexample :
    (handle (some ["http://a"]) (asciiBytes "dflt") sampleReq
        [AttemptResult.success c1Winner]).1
      = HandlerResult.ok { status := 418, headers := [], body := asciiBytes "hi" } ∧
    c1Winner.headers ≠ [] := by
  exact ⟨by decide, by decide⟩

/-- C1 as amended: when the race resolves to a winning response with a
valid UTF-8 body, the caller receives a response carrying the winning
response status code and body bytes unmodified, but with an empty header
set — the upstream headers are not copied. -/
theorem C1_won_status_body (dests : List String) (dflt : List Nat) (req : HRequest)
    (pre post : List AttemptResult) (r : HResponse)
    (hbody : isValidUtf8 req.body = true)
    (hbuild : (buildAll req req.body dests).2 = none)
    (hpre : ∀ a ∈ pre, a.isSuccess = false)
    (hr : isValidUtf8 r.body = true) :
    (handle (some dests) dflt req (pre ++ AttemptResult.success r :: post)).1
      = HandlerResult.ok { status := r.status, headers := [], body := r.body } := by
  have hw := race_first_success pre r post hpre
  simp [handle, hbody, hbuild, hw, synthesizeWon, hr]

/-- C1 witness: the amended statement at the C1 scenario — status 418 and
body "hi" delivered with an empty header set. -/
theorem C1_witness :
    (handle (some ["http://a"]) (asciiBytes "dflt") sampleReq
        ([] ++ AttemptResult.success c1Winner :: [])).1
      = HandlerResult.ok { status := c1Winner.status, headers := [], body := c1Winner.body } :=
  C1_won_status_body ["http://a"] (asciiBytes "dflt") sampleReq [] [] c1Winner
    (by decide) (by decide) (by decide) (by decide)

/-- C2 counterexample: with the malformed destination "http://" (no
authority: http::Uri rejects it, so the parse expect at line 134 panics)
configured ahead of the well-formed "http://b", the handler panics — the
whole request fails — and no outbound request is constructed: the
remaining destination is not attempted, refuting the claim that a
malformed entry only removes itself from the race. -/
theorem C2_counterexample :
    handle (some ["http://", "http://b"]) (asciiBytes "dflt") sampleReq []
      = (HandlerResult.panicked "Invalid proxy URI", []) := by
  decide

/-- C2 as amended: a malformed destination entry (unparseable URI, or one
whose parse lacks an authority) makes the handler panic, failing the whole
request; at most the destinations listed before the malformed entry have
their outbound requests constructed, and the destinations after it are
never attempted. -/
theorem C2_malformed_panics (pre post : List String) (bad : String) (dflt : List Nat)
    (req : HRequest) (comps : List AttemptResult)
    (hbody : isValidUtf8 req.body = true)
    (hbad : destMalformed bad = true) :
    (∃ m, (handle (some (pre ++ bad :: post)) dflt req comps).1 = HandlerResult.panicked m) ∧
    (handle (some (pre ++ bad :: post)) dflt req comps).2.length ≤ pre.length := by
  obtain ⟨⟨m, hm⟩, hlen⟩ := buildAll_malformed req req.body pre post bad hbad
  refine ⟨⟨m, ?_⟩, ?_⟩
  · simp [handle, hbody, hm]
  · simpa [handle, hbody, hm] using hlen

/-- C2 witness: the amended statement with one well-formed destination
before and one after the malformed "http://": the handler panics and at
most the one preceding destination had its request constructed. -/
theorem C2_witness :
    (∃ m, (handle (some (["http://b"] ++ "http://" :: ["http://c"])) (asciiBytes "dflt")
        sampleReq []).1 = HandlerResult.panicked m) ∧
    (handle (some (["http://b"] ++ "http://" :: ["http://c"])) (asciiBytes "dflt")
        sampleReq []).2.length ≤ (["http://b"] : List String).length :=
  C2_malformed_panics ["http://b"] ["http://c"] "http://" (asciiBytes "dflt") sampleReq []
    (by decide) (by decide)

/-- C9: when the race is won by a response whose body bytes are not valid
UTF-8, the expect at line 157 fires: the handler panics with the message
"Response body is not valid UTF-8" instead of returning a response. The
statement is universal over such scenarios, so the particular existence
the claim asserts follows (see the witness). -/
theorem C9_invalid_winner_panics (dests : List String) (dflt : List Nat) (req : HRequest)
    (pre post : List AttemptResult) (r : HResponse)
    (hbody : isValidUtf8 req.body = true)
    (hbuild : (buildAll req req.body dests).2 = none)
    (hpre : ∀ a ∈ pre, a.isSuccess = false)
    (hr : isValidUtf8 r.body = false) :
    (handle (some dests) dflt req (pre ++ AttemptResult.success r :: post)).1
      = HandlerResult.panicked "Response body is not valid UTF-8" := by
  have hw := race_first_success pre r post hpre
  simp [handle, hbody, hbuild, hw, synthesizeWon, hr]

/-- C9 witness: a winning response whose body is the single byte 0xFF
(after one timeout) makes the handler panic. -/
theorem C9_witness :
    (handle (some ["http://a"]) (asciiBytes "d") sampleReq
        ([AttemptResult.timeout] ++
          AttemptResult.success { status := 200, headers := [], body := [0xFF] } :: [])).1
      = HandlerResult.panicked "Response body is not valid UTF-8" :=
  C9_invalid_winner_panics ["http://a"] (asciiBytes "d") sampleReq [AttemptResult.timeout] []
    { status := 200, headers := [], body := [0xFF] }
    (by decide) (by decide) (by decide) (by decide)

/-- C10: the invalid-UTF-8 diagnostic response and the no-success fallback
response are both built by Response::new, hence carry status 200 and an
empty header list — nothing copied from the inbound request or any
upstream — for every configuration, request and completion sequence; and
the Config structure embedded above has no status-code field at all, so no
configured default status can enter either response. -/
theorem C10_synthesized_status_200 (pd : Option (List String)) (dests : List String)
    (dflt : List Nat) (req req2 : HRequest) (comps comps2 : List AttemptResult)
    (hinv : isValidUtf8 req.body = false)
    (hval : isValidUtf8 req2.body = true)
    (hbuild : (buildAll req2 req2.body dests).2 = none)
    (hfail : ∀ a ∈ comps2, a.isSuccess = false) :
    (handle pd dflt req comps).1
      = HandlerResult.ok { status := 200, headers := [], body := diagnosticBody } ∧
    (handle (some dests) dflt req2 comps2).1
      = HandlerResult.ok { status := 200, headers := [], body := dflt } ∧
    (handle none dflt req2 comps2).1
      = HandlerResult.ok { status := 200, headers := [], body := dflt } := by
  have hr := race_no_success comps2 hfail
  refine ⟨?_, ?_, ?_⟩
  · simp [handle, hinv]
  · simp [handle, hval, hbuild, hr]
  · simp [handle, hval]

/-- C10 witness: both synthesized responses at concrete inputs carry
status 200 and no headers. -/
theorem C10_witness :
    (handle (some ["http://a"]) (asciiBytes "d") sampleBadReq []).1
      = HandlerResult.ok { status := 200, headers := [], body := diagnosticBody } ∧
    (handle (some ["http://a"]) (asciiBytes "d") sampleReq [AttemptResult.timeout]).1
      = HandlerResult.ok { status := 200, headers := [], body := asciiBytes "d" } ∧
    (handle none (asciiBytes "d") sampleReq [AttemptResult.timeout]).1
      = HandlerResult.ok { status := 200, headers := [], body := asciiBytes "d" } :=
  C10_synthesized_status_200 (some ["http://a"]) ["http://a"] (asciiBytes "d")
    sampleBadReq sampleReq [] [AttemptResult.timeout]
    (by decide) (by decide) (by decide) (by decide)

/-- C7 counterexample: for the inbound request in absolute form (target
http://orig.example/p?q=1, as hyper delivers when the client sends an
absolute request target) and the well-formed destination "http://dest",
the format! at line 135 appends the Display rendering of the whole inbound
URI — scheme and authority included — producing
"http://desthttp://orig.example/p?q=1", which is not the destination
scheme and authority paired with the original path and query
("http://dest/p?q=1"): the claim fails for such inbound requests. -/
theorem C7_counterexample :
    buildAttempt c7AbsReq c7AbsReq.body "http://dest"
      = Except.ok { method := "GET", uri := "http://desthttp://orig.example/p?q=1",
                    version := "HTTP/1.1", headers := [("host", "orig.example")],
                    body := [], timeoutSecs := 30 } ∧
    "http://desthttp://orig.example/p?q=1" ≠ "http://dest/p?q=1" := by
  exact ⟨rfl, by decide⟩

/-- C7 as amended: for every inbound request and well-formed destination,
the outbound URI is the destination scheme (defaulting to "http" when the
destination has none) and authority followed by the Display rendering of
the full inbound URI; when the inbound target is origin-form — no scheme
and no authority, the ordinary server case — that rendering is exactly the
original path and query. Method, protocol version, the full header set
(any Host header among them) and the buffered body bytes are cloned
verbatim. -/
theorem C7_outbound_request_fields (req : HRequest) (d : String) (u : HUri) (a : String)
    (hu : parseUri d = some u) (ha : u.authority = some a) :
    buildAttempt req req.body d
      = Except.ok { method := req.method,
                    uri := (u.scheme.getD "http") ++ "://" ++ a ++ uriToString req.uri,
                    version := req.version, headers := req.headers, body := req.body,
                    timeoutSecs := timeoutDurationSecs } ∧
    (req.uri.scheme = none → req.uri.authority = none →
      (u.scheme.getD "http") ++ "://" ++ a ++ uriToString req.uri
        = (u.scheme.getD "http") ++ "://" ++ a ++ req.uri.pathAndQuery) := by
  constructor
  · simp [buildAttempt, hu, ha]
  · intro h1 h2
    have : uriToString req.uri = req.uri.pathAndQuery := by
      simp [uriToString, h1, h2]
    rw [this]

/-- C7 witness: the amended statement for the origin-form sampleReq and
the destination "http://b:8080": both hypotheses hold, the built request
clones every field, and the URI is "http://b:8080/x?k=1". -/
theorem C7_witness :
    buildAttempt sampleReq sampleReq.body "http://b:8080"
      = Except.ok { method := sampleReq.method,
                    uri := ((some "http" : Option String).getD "http") ++ "://" ++ "b:8080"
                      ++ uriToString sampleReq.uri,
                    version := sampleReq.version, headers := sampleReq.headers,
                    body := sampleReq.body, timeoutSecs := timeoutDurationSecs } ∧
    (sampleReq.uri.scheme = none → sampleReq.uri.authority = none →
      ((some "http" : Option String).getD "http") ++ "://" ++ "b:8080"
          ++ uriToString sampleReq.uri
        = ((some "http" : Option String).getD "http") ++ "://" ++ "b:8080"
          ++ sampleReq.uri.pathAndQuery) :=
  C7_outbound_request_fields sampleReq "http://b:8080"
    { scheme := some "http", authority := some "b:8080", pathAndQuery := "" } "b:8080"
    (by decide) (by decide)

/-- C8 counterexample: the timeout every attempt runs under is the
constant 30 seconds for the empty configuration and for a fully populated
one, and no configuration yields any other value — the duration is the
literal Duration::from_secs(30) at line 130, and the Config and Opt
structures carry no timeout field, so it is not externally configured:
the claim that the per-destination timeout is externally configured
fails. -/
theorem C8_counterexample :
    handlerTimeoutSecs { listen_address := none, proxy_destinations := none,
                         default_response := none } = 30 ∧
    handlerTimeoutSecs { listen_address := some "127.0.0.1:8080",
                         proxy_destinations := some ["http://a"],
                         default_response := some "d" } = 30 ∧
    ¬ ∃ c : Config, handlerTimeoutSecs c ≠ 30 := by
  refine ⟨rfl, rfl, ?_⟩
  rintro ⟨c, hc⟩
  exact hc rfl

/-- C8 as amended: every successfully constructed outbound attempt is
wrapped in its own independent timeout of exactly 30 seconds, and that
duration is a hardcoded constant — the same for every external
configuration — not an externally configured value. -/
theorem C8_timeout_fixed_thirty (req : HRequest) (b : List Nat) (d : String)
    (out : OutboundReq) (h : buildAttempt req b d = Except.ok out) :
    out.timeoutSecs = 30 ∧ ∀ c : Config, handlerTimeoutSecs c = 30 := by
  refine ⟨?_, fun c => rfl⟩
  unfold buildAttempt at h
  split at h
  · exact Except.noConfusion h
  · split at h
    · exact Except.noConfusion h
    · injection h with h2
      subst h2
      rfl

/-- C8 witness: the attempt built for sampleReq and "http://a" carries the
30-second timeout, independent of any configuration. -/
theorem C8_witness :
    c8Out.timeoutSecs = 30 ∧ ∀ c : Config, handlerTimeoutSecs c = 30 :=
  C8_timeout_fixed_thirty sampleReq sampleReq.body "http://a" c8Out rfl

end DevServer
